import Mathlib

/-!
Shallow embedding of `src/eager/op.rs` from the tensorflow-rust repository:
the eager-execution operation descriptor (`Op`) and its marshalling of names,
inputs and attributes into the native TensorFlow C API, together with the
test-only `raw_ops::Add` wrapper.  Pure marshalling code is translated
directly from the Rust source; the native library (`TFE_*` calls) and the
crate types defined outside this file (`Status`, `Shape`, `DataType`,
`impl_drop!`) are modelled from the specification, as flagged in doc
comments.
-/

/-- Status codes of the native library's status object, mirroring the crate's
`Code` enumeration (defined outside the excerpt).  Only the codes the claims
touch are listed, plus a catch-all. -/
inductive Code where
  | ok
  | invalidArgument
  | notFound
  | failedPrecondition
  | unimplemented
  | unknownCode
  deriving DecidableEq, Repr

/-- Modelled from the spec: the transient `Status` value produced by every
native call, carrying either success or a structured native error. -/
structure Status where
  code : Code
  message : String
  deriving DecidableEq, Repr

/-- Rust `Status::is_ok`: the status carries the success code. -/
def Status.isOk (s : Status) : Bool := s.code == Code.ok

/-- A fresh status, as produced by `Status::new` at the top of each wrapper. -/
def okStatus : Status := ⟨Code.ok, ""⟩

/-- Modelled from the spec: the binding-layer error produced when
`CString::new` meets an embedded null byte in a supplied name
(an InvalidArgument-class error). -/
def nulErrorStatus : Status := ⟨Code.invalidArgument, "nul byte found in provided data"⟩

/-- Rust `CString::new` fails exactly when the supplied string contains an
embedded null byte; this predicate captures that check. -/
def hasNullByte (s : String) : Bool := s.data.contains (Char.ofNat 0)

/-- The crate's `Shape` newtype: `Shape(Option<Vec<Option<i64>>>)`. `none`
is an unknown rank; a `none` entry is a dimension of unknown size. -/
structure Shape where
  dims : Option (List (Option Int))
  deriving DecidableEq, Repr

/-- The crate's `DataType` enumeration (defined outside the excerpt);
only representative variants are needed. -/
inductive DataType where
  | float
  | double
  | int32
  | uint8
  | int64
  | boolean
  deriving DecidableEq, Repr

/-- `DataType::to_c`: the native wire-level numeric tag of a data type. -/
def DataType.to_c : DataType → Nat
  | .float => 1
  | .double => 2
  | .int32 => 3
  | .uint8 => 4
  | .int64 => 9
  | .boolean => 10

/-- Opaque 32-bit float values: the claims never compute with floats, only
marshal them, so the payload is left abstract as its bit pattern. -/
structure F32 where
  bits : Nat
  deriving DecidableEq, Repr

/-- The arguments `Op::set_attr_shape` hands to `TFE_OpSetAttrShape`: the
dimension array (`none` embeds the null pointer) and the `num_dims` value.
Translated from the `match value.0` in the Rust source: an unknown rank
passes a null pointer and rank `-1`; a known rank passes each dimension
with `unwrap_or(-1)` and the dimension count. -/
def shapeEncode (s : Shape) : Option (List Int) × Int :=
  match s.dims with
  | none => (none, -1)
  | some dims => (some (dims.map (fun x => x.getD (-1))), (dims.length : Int))

/-- The arrays `Op::set_attr_shape_list` hands to `TFE_OpSetAttrShapeList`:
per-shape dimension arrays (`none` embeds a null pointer), per-shape
`num_dims` values, and the shape count.  Translated from the `c_dims`,
`ptrs` and `lens` vectors in the Rust source. -/
def shapeListMarshal (value : List Shape) : List (Option (List Int)) × List Int × Int :=
  let c_dims : List (Option (List Int)) :=
    value.map (fun x => x.dims.map (fun dims => dims.map (fun d => d.getD (-1))))
  let ptrs : List (Option (List Int)) := c_dims
  let lens : List Int :=
    value.map (fun x =>
      match x.dims with
      | none => -1
      | some dims => (dims.length : Int))
  (ptrs, lens, (ptrs.length : Int))

/-- Marshalled attribute values as they reach the native layer.  Each
variant records exactly the data the corresponding `TFE_OpSetAttr*` call
receives (strings as raw bytes plus length, booleans as 0/1 bytes, types
as numeric tags, shapes as sentinel-encoded dimension arrays). -/
inductive AttrValue where
  | str (v : String)
  | strList (vs : List String)
  | int (v : Int)
  | intList (vs : List Int)
  | flt (v : F32)
  | fltList (vs : List F32)
  | boolVal (v : Nat)
  | boolList (vs : List Nat)
  | dtype (v : Nat)
  | dtypeList (vs : List Nat)
  | shapeVal (enc : Option (List Int) × Int)
  | shapeListVal (encs : List (Option (List Int)) × List Int × Int)
  | tensorVal (t : Nat)
  deriving DecidableEq, Repr

/-- Modelled from the spec: attributes are key-value pairs where each name
maps to at most one value, so the native store overwrites any previous
binding of the same name. -/
def setAttr (attrs : List (String × AttrValue)) (n : String) (v : AttrValue) :
    List (String × AttrValue) :=
  attrs.filter (fun p => p.1 != n) ++ [(n, v)]

/-- A caller-supplied tensor handle; `inner` is the native
`TFE_TensorHandle` pointer, modelled as an identifier into a heap. -/
structure TensorHandle where
  inner : Nat
  deriving DecidableEq, Repr

/-- The observable state of the native `TFE_Op` behind the descriptor:
its operation name, the input handles attached so far, the attribute
bindings, and the resolved device, all modelled from the spec (the native
struct itself is outside the excerpt). -/
structure OpState where
  name : String
  inputs : List Nat
  attrs : List (String × AttrValue)
  device : Option String
  deriving DecidableEq, Repr

/-- Modelled from the spec: a native eager context knows a fixed set of
operation names; descriptor creation for any other name fails. -/
structure Context where
  knownOps : List String
  deriving DecidableEq, Repr

/-- Modelled from the spec: `TFE_NewOp` returns a fresh native op struct
for a known operation name and a null pointer plus an InvalidArgument-class
status for an unknown one. -/
def TFE_NewOp (ctx : Context) (name : String) : Option OpState × Status :=
  if ctx.knownOps.contains name then
    (some ⟨name, [], [], none⟩, okStatus)
  else
    (none, ⟨Code.invalidArgument, "op name is unknown to the context"⟩)

/-- Rust `Status::into_result`: success maps to `Ok(())`, anything else
returns the status itself as the error. -/
def Status.intoResult (s : Status) : Except Status Unit :=
  if s.isOk then .ok () else .error s

/-- `Op::new`: convert the name to a C string (failing on an embedded null
byte), call `TFE_NewOp`, and return the error status when the returned
pointer is null. -/
def Op.new (ctx : Context) (op_or_function_name : String) : Except Status OpState :=
  if hasNullByte op_or_function_name then .error nulErrorStatus
  else
    match TFE_NewOp ctx op_or_function_name with
    | (some op, _) => .ok op
    | (none, st) => .error st

/-- `Op::add_input`: `TFE_OpAddInput` appends the input handle and reports
through the status, which `status.into_result()` funnels to the caller.
The native verdict (type/device checking) is the `nativeStatus` argument. -/
def Op.add_input (op : OpState) (input : TensorHandle) (nativeStatus : Status) :
    Except Status OpState :=
  if nativeStatus.isOk then .ok { op with inputs := op.inputs ++ [input.inner] }
  else .error nativeStatus

/-- The arguments `Op::add_input_list` hands to `TFE_OpAddInputList`: the
vector of raw handle pointers collected from the slice, and its length.
Translated from `inputs.iter().map(|v| v.inner).collect()` and
`inputs.len() as c_int`. -/
def addInputListMarshal (inputs : List TensorHandle) : List Nat × Int :=
  let ptrs : List Nat := inputs.map (fun v => v.inner)
  (ptrs, (ptrs.length : Int))

/-- `Op::add_input_list`: marshal the handles, call `TFE_OpAddInputList`,
and funnel its status through `into_result`. -/
def Op.add_input_list (op : OpState) (inputs : List TensorHandle) (nativeStatus : Status) :
    Except Status OpState :=
  if nativeStatus.isOk then .ok { op with inputs := op.inputs ++ (addInputListMarshal inputs).1 }
  else .error nativeStatus

/-- `Op::set_device`: convert the device name to a C string (failing on an
embedded null byte) and call `TFE_OpSetDevice`; the native resolution
outcome (a resolved device string, or a failure status) is the
`nativeResolve` argument, funnelled through `into_result`. -/
def Op.set_device (op : OpState) (device_name : String)
    (nativeResolve : Except Status String) : Except Status OpState :=
  if hasNullByte device_name then .error nulErrorStatus
  else
    match nativeResolve with
    | .error st => .error st
    | .ok resolved => .ok { op with device := some resolved }

/-- `Op::get_device`: `TFE_OpGetDevice` returns the device string the
native layer resolved (the default device when none was set) with a
success status, and the wrapper decodes it.  Modelled from the spec:
resolved device strings are valid strings, so decoding succeeds. -/
def Op.get_device (op : OpState) : Except Status String :=
  .ok (op.device.getD "")

/-- The arguments `Op::set_attr_string` hands to `TFE_OpSetAttrString` for
the value: the raw byte pointer (`value.as_bytes()`) and the byte length.
No null-byte scan is performed on the value. -/
def stringMarshal (value : String) : String × Nat :=
  (value, value.length)

/-- `Op::set_attr_string`: only the attribute name goes through
`CString::new`; the value is passed as raw bytes plus length, then the
function returns `Ok(())` without consulting any status. -/
def Op.set_attr_string (op : OpState) (attr_name : String) (value : String) :
    Except Status OpState :=
  if hasNullByte attr_name then .error nulErrorStatus
  else .ok { op with attrs := setAttr op.attrs attr_name (.str (stringMarshal value).1) }

/-- The arguments `Op::set_attr_string_list` hands to
`TFE_OpSetAttrStringList`: the per-value byte arrays, the per-value byte
lengths, and the value count.  Translated from the `bytes`, `ptrs` and
`lens` vectors in the Rust source. -/
def stringListMarshal (values : List String) : List String × List Nat × Int :=
  let bytes : List String := values.map (fun x => x)
  let ptrs : List String := bytes.map (fun x => x)
  let lens : List Nat := bytes.map (fun x => x.length)
  (ptrs, lens, (ptrs.length : Int))

/-- `Op::set_attr_string_list`: only the attribute name goes through
`CString::new`; each value is passed as raw bytes plus length, then the
function returns `Ok(())` without consulting any status. -/
def Op.set_attr_string_list (op : OpState) (attr_name : String) (values : List String) :
    Except Status OpState :=
  if hasNullByte attr_name then .error nulErrorStatus
  else .ok { op with attrs := setAttr op.attrs attr_name (.strList (stringListMarshal values).1) }

/-- `Op::set_attr_int`: attribute name through `CString::new`, value passed
directly, `Ok(())` with no status consulted. -/
def Op.set_attr_int (op : OpState) (attr_name : String) (value : Int) :
    Except Status OpState :=
  if hasNullByte attr_name then .error nulErrorStatus
  else .ok { op with attrs := setAttr op.attrs attr_name (.int value) }

/-- The arguments `Op::set_attr_int_list` hands to `TFE_OpSetAttrIntList`:
the value slice itself and its length (`value.len() as i32`). -/
def intListMarshal (value : List Int) : List Int × Int :=
  (value, (value.length : Int))

/-- `Op::set_attr_int_list`: attribute name through `CString::new`, the
slice passed with its length, `Ok(())` with no status consulted. -/
def Op.set_attr_int_list (op : OpState) (attr_name : String) (value : List Int) :
    Except Status OpState :=
  if hasNullByte attr_name then .error nulErrorStatus
  else .ok { op with attrs := setAttr op.attrs attr_name (.intList (intListMarshal value).1) }

/-- `Op::set_attr_float`: attribute name through `CString::new`, value
passed directly, `Ok(())` with no status consulted. -/
def Op.set_attr_float (op : OpState) (attr_name : String) (value : F32) :
    Except Status OpState :=
  if hasNullByte attr_name then .error nulErrorStatus
  else .ok { op with attrs := setAttr op.attrs attr_name (.flt value) }

/-- The arguments `Op::set_attr_float_list` hands to
`TFE_OpSetAttrFloatList`: each `f32` cast to `c_float` (an identity on the
value) and the length of the cast vector. -/
def floatListMarshal (value : List F32) : List F32 × Int :=
  let c_value : List F32 := value.map (fun x => x)
  (c_value, (c_value.length : Int))

/-- `Op::set_attr_float_list`: attribute name through `CString::new`, the
cast vector passed with its length, `Ok(())` with no status consulted. -/
def Op.set_attr_float_list (op : OpState) (attr_name : String) (value : List F32) :
    Except Status OpState :=
  if hasNullByte attr_name then .error nulErrorStatus
  else .ok { op with attrs := setAttr op.attrs attr_name (.fltList (floatListMarshal value).1) }

/-- `Op::set_attr_bool`: the value is marshalled to the byte 1 or 0. -/
def boolMarshal (value : Bool) : Nat :=
  if value then 1 else 0

/-- `Op::set_attr_bool`: attribute name through `CString::new`, value as a
0/1 byte, `Ok(())` with no status consulted. -/
def Op.set_attr_bool (op : OpState) (attr_name : String) (value : Bool) :
    Except Status OpState :=
  if hasNullByte attr_name then .error nulErrorStatus
  else .ok { op with attrs := setAttr op.attrs attr_name (.boolVal (boolMarshal value)) }

/-- The arguments `Op::set_attr_bool_list` hands to
`TFE_OpSetAttrBoolList`: each boolean as a 0/1 byte and the length of the
marshalled vector. -/
def boolListMarshal (value : List Bool) : List Nat × Int :=
  let c_value : List Nat := value.map (fun x => if x then 1 else 0)
  (c_value, (c_value.length : Int))

/-- `Op::set_attr_bool_list`: attribute name through `CString::new`, the
0/1 byte vector passed with its length, `Ok(())` with no status consulted. -/
def Op.set_attr_bool_list (op : OpState) (attr_name : String) (value : List Bool) :
    Except Status OpState :=
  if hasNullByte attr_name then .error nulErrorStatus
  else .ok { op with attrs := setAttr op.attrs attr_name (.boolList (boolListMarshal value).1) }

/-- `Op::set_attr_type`: attribute name through `CString::new`, value
converted by `to_c`, `Ok(())` with no status consulted. -/
def Op.set_attr_type (op : OpState) (attr_name : String) (value : DataType) :
    Except Status OpState :=
  if hasNullByte attr_name then .error nulErrorStatus
  else .ok { op with attrs := setAttr op.attrs attr_name (.dtype value.to_c) }

/-- The arguments `Op::set_attr_type_list` hands to
`TFE_OpSetAttrTypeList`: each data type converted by `to_c` and the length
of the converted vector. -/
def typeListMarshal (value : List DataType) : List Nat × Int :=
  let c_value : List Nat := value.map (fun x => x.to_c)
  (c_value, (c_value.length : Int))

/-- `Op::set_attr_type_list`: attribute name through `CString::new`, the
converted vector passed with its length, `Ok(())` with no status
consulted. -/
def Op.set_attr_type_list (op : OpState) (attr_name : String) (value : List DataType) :
    Except Status OpState :=
  if hasNullByte attr_name then .error nulErrorStatus
  else .ok { op with attrs := setAttr op.attrs attr_name (.dtypeList (typeListMarshal value).1) }

/-- `Op::set_attr_shape`: attribute name through `CString::new`, the shape
marshalled with the `-1` sentinels, `TFE_OpSetAttrShape` reporting through
the status, funnelled by `into_result`. -/
def Op.set_attr_shape (op : OpState) (attr_name : String) (value : Shape)
    (nativeStatus : Status) : Except Status OpState :=
  if hasNullByte attr_name then .error nulErrorStatus
  else if nativeStatus.isOk then
    .ok { op with attrs := setAttr op.attrs attr_name (.shapeVal (shapeEncode value)) }
  else .error nativeStatus

/-- `Op::set_attr_shape_list`: attribute name through `CString::new`, each
shape marshalled with the `-1` sentinels, `TFE_OpSetAttrShapeList`
reporting through the status, funnelled by `into_result`. -/
def Op.set_attr_shape_list (op : OpState) (attr_name : String) (value : List Shape)
    (nativeStatus : Status) : Except Status OpState :=
  if hasNullByte attr_name then .error nulErrorStatus
  else if nativeStatus.isOk then
    .ok { op with attrs := setAttr op.attrs attr_name (.shapeListVal (shapeListMarshal value)) }
  else .error nativeStatus

/-- `Op::set_attr_any_tensor`: attribute name through `CString::new`, then
`value.inner()?` (the tensor's own fallible native conversion, the
`tensorInner` argument), then `TFE_OpSetAttrTensor` reporting through the
status, funnelled by `into_result`. -/
def Op.set_attr_any_tensor (op : OpState) (attr_name : String)
    (tensorInner : Except Status Nat) (nativeStatus : Status) : Except Status OpState :=
  if hasNullByte attr_name then .error nulErrorStatus
  else
    match tensorInner with
    | .error st => .error st
    | .ok t =>
      if nativeStatus.isOk then
        .ok { op with attrs := setAttr op.attrs attr_name (.tensorVal t) }
      else .error nativeStatus

/-- A resolved tensor value: its shape and its elements, as observed
through `TensorHandle::resolve` in the test. -/
structure CTensor where
  shape : List Nat
  values : List Int
  deriving DecidableEq, Repr

/-- Modelled from the spec: the native `TFE_Execute` for the elementwise
`Add` kernel — two same-shaped inputs produce their elementwise sum; the
status reports failure for anything else.  The heap maps native tensor
handles to their tensor values. -/
def nativeExecuteAdd (heap : Nat → CTensor) (op : OpState) : Option CTensor × Status :=
  if op.name == "Add" then
    match op.inputs with
    | [hx, hy] =>
      let x := heap hx
      let y := heap hy
      if x.shape == y.shape then
        (some ⟨x.shape, List.zipWith (fun a b => a + b) x.values y.values⟩, okStatus)
      else
        (none, ⟨Code.invalidArgument, "incompatible shapes"⟩)
    | _ => (none, ⟨Code.invalidArgument, "Add expects exactly two inputs"⟩)
  else
    (none, ⟨Code.unimplemented, "only the Add kernel is modelled"⟩)

/-- The tail of `Add::call`: after `TFE_Execute`, a success status wraps
the produced handle in `Ok`, otherwise the status is returned unchanged. -/
def executeWrap (r : Option CTensor × Status) : Except Status CTensor :=
  if r.2.isOk then .ok (r.1.getD ⟨[], []⟩) else .error r.2

/-- The test-scaffolding `raw_ops::Add` struct: one optional `T` (dtype)
attribute, defaulting to `None`. -/
structure AddOp where
  T : Option DataType
  deriving DecidableEq, Repr

/-- `Add::new` / `Add::default`: the `T` attribute starts unset. -/
def AddOp.new : AddOp := ⟨none⟩

/-- The builder method `Add::T`: records the dtype attribute value. -/
def AddOp.setT (self : AddOp) (value : DataType) : AddOp := { self with T := some value }

/-- `Add::call`: create the descriptor for op name "Add", attach the two
inputs, set the `T` attribute when present, and execute.  The native
verdicts on the two `add_input` calls are the status arguments. -/
def AddOp.call (self : AddOp) (ctx : Context) (heap : Nat → CTensor)
    (x y : TensorHandle) (stX stY : Status) : Except Status CTensor :=
  match Op.new ctx "Add" with
  | .error st => .error st
  | .ok op =>
    match Op.add_input op x stX with
    | .error st => .error st
    | .ok op =>
      match Op.add_input op y stY with
      | .error st => .error st
      | .ok op =>
        match (match self.T with
               | some value => Op.set_attr_type op "T" value
               | none => .ok op) with
        | .error st => .error st
        | .ok op => executeWrap (nativeExecuteAdd heap op)

/-- `raw_ops::add`: `Add` with default options. -/
def add (ctx : Context) (heap : Nat → CTensor) (x y : TensorHandle)
    (stX stY : Status) : Except Status CTensor :=
  AddOp.new.call ctx heap x y stX stY

/-- Lifecycle events of the one native resource owned by a descriptor:
its creation by `TFE_NewOp` and its release by `TFE_DeleteOp`. -/
inductive ResEv where
  | opCreated
  | opDeleted
  deriving DecidableEq, BEq, Repr

/-- Modelled from the spec: `Add::call` instrumented with the resource
events dictated by Rust scope semantics and the `impl_drop!`-generated
destructor — the op created by `Op::new` is released by `TFE_DeleteOp`
exactly when the binding goes out of scope, on every exit path, including
each `?` early return and the failed-execute return. -/
def addCallTrace (self : AddOp) (ctx : Context) (heap : Nat → CTensor)
    (x y : TensorHandle) (stX stY : Status) : Except Status CTensor × List ResEv :=
  match Op.new ctx "Add" with
  | .error st => (.error st, [])
  | .ok op =>
    match Op.add_input op x stX with
    | .error st => (.error st, [.opCreated, .opDeleted])
    | .ok op =>
      match Op.add_input op y stY with
      | .error st => (.error st, [.opCreated, .opDeleted])
      | .ok op =>
        match (match self.T with
               | some value => Op.set_attr_type op "T" value
               | none => .ok op) with
        | .error st => (.error st, [.opCreated, .opDeleted])
        | .ok op =>
          match executeWrap (nativeExecuteAdd heap op) with
          | .error st => (.error st, [.opCreated, .opDeleted])
          | .ok res => (.ok res, [.opCreated, .opDeleted])

/-- The tensor of `test_add`: `[1, 2, 3, 4]` shaped `2x2`. -/
def testTensor : CTensor := ⟨[2, 2], [1, 2, 3, 4]⟩

/-- The heap of `test_add`: handle 0 is `x`, handle 1 its
`copy_sharing_tensor` copy (the same underlying tensor). -/
def testHeap : Nat → CTensor := fun _ => testTensor

/-- Overwriting an attribute binding with the same name and value twice
gives the same attribute store as doing it once. -/
theorem setAttr_idem (attrs : List (String × AttrValue)) (n : String) (v : AttrValue) :
    setAttr (setAttr attrs n v) n v = setAttr attrs n v := by
  unfold setAttr
  simp [List.filter_append, List.filter_filter]

/-- The dimension array handed to the native shape call is the shape's
dimension list with each unknown dimension replaced by `-1`. -/
theorem shapeEncode_fst (t : Shape) :
    (shapeEncode t).1 = t.dims.map (fun ds => ds.map (fun d => d.getD (-1))) := by
  cases h : t.dims <;> simp [shapeEncode, h]

/-- The `num_dims` value handed to the native shape call is `-1` for an
unknown rank and the dimension count otherwise. -/
theorem shapeEncode_snd (t : Shape) :
    (shapeEncode t).2 = match t.dims with
      | none => -1
      | some ds => (ds.length : Int) := by
  cases h : t.dims <;> simp [shapeEncode, h]

/-- C1: executing the two-input elementwise Add operation with inputs
`[1,2,3,4]` and `[1,2,3,4]` reshaped as 2x2 tensors, with the dtype
attribute set explicitly, yields `[2,4,6,8]` as a 2x2 result — the
end-to-end scenario of `raw_ops::add` / `Add::call`. -/
theorem add_2x2_end_to_end :
    (AddOp.new.setT DataType.int32).call ⟨["Add"]⟩ testHeap ⟨0⟩ ⟨1⟩ okStatus okStatus
      = .ok ⟨[2, 2], [2, 4, 6, 8]⟩ := rfl

/-- C2: `set_attr_shape` (and `set_attr_shape_list` per element) encodes an
unknown rank as rank `-1` with a null dimension pointer, encodes each
unknown dimension of a known-rank shape as `-1`, and passes known
dimensions through unchanged; the shape-list marshalling agrees with the
single-shape encoding elementwise and in order. -/
theorem shape_attr_sentinel_encoding (s : Shape) (shapes : List Shape) :
    ((shapeEncode s).1 = none ↔ s.dims = none)
  ∧ ((shapeEncode s).2 = match s.dims with
      | none => -1
      | some ds => (ds.length : Int))
  ∧ (∀ i : Nat, ((shapeEncode s).1.getD [])[i]?
      = ((s.dims.getD [])[i]?).map (fun d => d.getD (-1)))
  ∧ (∀ j : Nat, (shapeListMarshal shapes).1[j]?
      = (shapes[j]?).map (fun t => (shapeEncode t).1))
  ∧ (∀ j : Nat, (shapeListMarshal shapes).2.1[j]?
      = (shapes[j]?).map (fun t => (shapeEncode t).2))
  ∧ (shapeListMarshal shapes).2.2 = (shapes.length : Int) := by
  refine ⟨?_, shapeEncode_snd s, ?_, ?_, ?_, ?_⟩
  · cases h : s.dims <;> simp [shapeEncode, h]
  · intro i; cases h : s.dims <;> simp [shapeEncode, h, List.getElem?_map]
  · intro j; simp [shapeListMarshal, List.getElem?_map, shapeEncode_fst]
  · intro j; simp [shapeListMarshal, List.getElem?_map, shapeEncode_snd]
  · simp [shapeListMarshal]

/-- C3: descriptor creation (`Op::new`) succeeds when the name is a known
operation name; it fails with an InvalidArgument-class error when the name
is unknown to the context or contains an embedded null byte, and on
failure no descriptor is produced (the result is the error alone). -/
theorem op_new_name_validation (ctx : Context) (name : String) :
    (hasNullByte name = false → name ∈ ctx.knownOps →
      Op.new ctx name = .ok ⟨name, [], [], none⟩)
  ∧ (hasNullByte name = true →
      Op.new ctx name = .error nulErrorStatus ∧ nulErrorStatus.code = Code.invalidArgument)
  ∧ (hasNullByte name = false → name ∉ ctx.knownOps →
      ∃ st, Op.new ctx name = .error st ∧ st.code = Code.invalidArgument) := by
  refine ⟨?_, ?_, ?_⟩
  · intro h1 h2; simp [Op.new, h1, TFE_NewOp, h2]
  · intro h1; exact ⟨by simp [Op.new, h1], rfl⟩
  · intro h1 h2
    exact ⟨⟨Code.invalidArgument, "op name is unknown to the context"⟩,
      by simp [Op.new, h1, TFE_NewOp, h2], rfl⟩

/-- Witness for C3: a known name succeeds, a name with an embedded null
byte fails, and an unknown name fails with an InvalidArgument-class
status, all on a concrete context. -/
theorem op_new_name_validation_witness :
    (hasNullByte "Add" = false ∧ "Add" ∈ (Context.mk ["Add"]).knownOps
      ∧ Op.new ⟨["Add"]⟩ "Add" = .ok ⟨"Add", [], [], none⟩)
  ∧ (hasNullByte "a\x00b" = true ∧ Op.new ⟨["Add"]⟩ "a\x00b" = .error nulErrorStatus)
  ∧ (hasNullByte "Sub" = false ∧ "Sub" ∉ (Context.mk ["Add"]).knownOps
      ∧ ∃ st, Op.new ⟨["Add"]⟩ "Sub" = .error st ∧ st.code = Code.invalidArgument) :=
  ⟨⟨by decide, by decide,
      (op_new_name_validation ⟨["Add"]⟩ "Add").1 (by decide) (by decide)⟩,
   ⟨by decide,
      ((op_new_name_validation ⟨["Add"]⟩ "a\x00b").2.1 (by decide)).1⟩,
   ⟨by decide, by decide,
      (op_new_name_validation ⟨["Add"]⟩ "Sub").2.2 (by decide) (by decide)⟩⟩

/-- C4: every fallible operation on the descriptor maps a non-success
native status one-to-one into the layer's error type and returns it
immediately: the very status the native call produced is the error the
caller receives, with no retry and no partial recovery. -/
theorem native_error_propagation (ctx : Context) (name : String) (op : OpState)
    (input : TensorHandle) (inputs : List TensorHandle) (s : Shape)
    (shapes : List Shape) (tIn : Nat) (res : Option CTensor) (st : Status)
    (hname : hasNullByte name = false) (hst : st.isOk = false) :
    ((TFE_NewOp ctx name).1 = none → Op.new ctx name = .error (TFE_NewOp ctx name).2)
  ∧ Op.add_input op input st = .error st
  ∧ Op.add_input_list op inputs st = .error st
  ∧ Op.set_device op name (.error st) = .error st
  ∧ Op.set_attr_shape op name s st = .error st
  ∧ Op.set_attr_shape_list op name shapes st = .error st
  ∧ Op.set_attr_any_tensor op name (.ok tIn) st = .error st
  ∧ Op.set_attr_any_tensor op name (.error st) okStatus = .error st
  ∧ executeWrap (res, st) = .error st := by
  refine ⟨?_, ?_, ?_, ?_, ?_, ?_, ?_, ?_, ?_⟩
  · intro h
    rcases hT : TFE_NewOp ctx name with ⟨o, st'⟩
    rcases o with _ | op'
    · simp [Op.new, hname, hT]
    · rw [hT] at h; simp at h
  · simp [Op.add_input, hst]
  · simp [Op.add_input_list, hst]
  · simp [Op.set_device, hname]
  · simp [Op.set_attr_shape, hname, hst]
  · simp [Op.set_attr_shape_list, hname, hst]
  · simp [Op.set_attr_any_tensor, hname, hst]
  · simp [Op.set_attr_any_tensor, hname]
  · simp [executeWrap, hst]

/-- Witness for C4: a concrete non-success status surfaces unchanged from
`add_input` on a concrete descriptor. -/
theorem native_error_propagation_witness :
    hasNullByte "x" = false ∧ (Status.mk Code.unknownCode "boom").isOk = false ∧
    Op.add_input ⟨"Add", [], [], none⟩ ⟨7⟩ ⟨Code.unknownCode, "boom"⟩
      = .error ⟨Code.unknownCode, "boom"⟩ :=
  ⟨by decide, by decide,
    (native_error_propagation ⟨[]⟩ "x" ⟨"Add", [], [], none⟩ ⟨7⟩ [] ⟨none⟩ [] 0 none
      ⟨Code.unknownCode, "boom"⟩ (by decide) (by decide)).2.1⟩

/-- C5: every supplied list (input tensor lists and every list-valued
attribute setter) is passed to the native call in exactly the order
supplied — elementwise the marshalled data is the image of the supplied
element at the same position — and the element count passed alongside the
data pointer equals the number of elements supplied. -/
theorem list_marshalling_order_count (inputs : List TensorHandle)
    (ss : List String) (il : List Int) (fl : List F32) (bl : List Bool)
    (tl : List DataType) (shapes : List Shape) :
    (∀ j : Nat, (addInputListMarshal inputs).1[j]? = (inputs[j]?).map TensorHandle.inner)
  ∧ (addInputListMarshal inputs).2 = (inputs.length : Int)
  ∧ (∀ j : Nat, (stringListMarshal ss).1[j]? = ss[j]?)
  ∧ (∀ j : Nat, (stringListMarshal ss).2.1[j]? = (ss[j]?).map String.length)
  ∧ (stringListMarshal ss).2.2 = (ss.length : Int)
  ∧ (intListMarshal il).1 = il
  ∧ (intListMarshal il).2 = (il.length : Int)
  ∧ (∀ j : Nat, (floatListMarshal fl).1[j]? = fl[j]?)
  ∧ (floatListMarshal fl).2 = (fl.length : Int)
  ∧ (∀ j : Nat, (boolListMarshal bl).1[j]? = (bl[j]?).map (fun b => if b then 1 else 0))
  ∧ (boolListMarshal bl).2 = (bl.length : Int)
  ∧ (∀ j : Nat, (typeListMarshal tl).1[j]? = (tl[j]?).map DataType.to_c)
  ∧ (typeListMarshal tl).2 = (tl.length : Int)
  ∧ (∀ j : Nat, (shapeListMarshal shapes).1[j]?
      = (shapes[j]?).map (fun t => t.dims.map (fun ds => ds.map (fun d => d.getD (-1)))))
  ∧ (shapeListMarshal shapes).2.2 = (shapes.length : Int) := by
  refine ⟨?_, ?_, ?_, ?_, ?_, ?_, ?_, ?_, ?_, ?_, ?_, ?_, ?_, ?_, ?_⟩ <;>
    simp [addInputListMarshal, stringListMarshal, intListMarshal, floatListMarshal,
      boolListMarshal, typeListMarshal, shapeListMarshal, List.getElem?_map]

/-- C6: every attribute setter is idempotent — calling the setter twice
with the same name and the same value (sequencing the second call on the
result of the first) leaves the descriptor in exactly the state produced
by calling it once, so the eventual execute behavior is the same. -/
theorem attr_setters_idempotent (op : OpState) (n : String) (s : String)
    (ss : List String) (i : Int) (il : List Int) (f : F32) (fl : List F32)
    (b : Bool) (bl : List Bool) (t : DataType) (tl : List DataType)
    (sh : Shape) (shl : List Shape) (tIn : Nat) :
    Except.bind (Op.set_attr_string op n s) (fun o => Op.set_attr_string o n s)
      = Op.set_attr_string op n s
  ∧ Except.bind (Op.set_attr_string_list op n ss) (fun o => Op.set_attr_string_list o n ss)
      = Op.set_attr_string_list op n ss
  ∧ Except.bind (Op.set_attr_int op n i) (fun o => Op.set_attr_int o n i)
      = Op.set_attr_int op n i
  ∧ Except.bind (Op.set_attr_int_list op n il) (fun o => Op.set_attr_int_list o n il)
      = Op.set_attr_int_list op n il
  ∧ Except.bind (Op.set_attr_float op n f) (fun o => Op.set_attr_float o n f)
      = Op.set_attr_float op n f
  ∧ Except.bind (Op.set_attr_float_list op n fl) (fun o => Op.set_attr_float_list o n fl)
      = Op.set_attr_float_list op n fl
  ∧ Except.bind (Op.set_attr_bool op n b) (fun o => Op.set_attr_bool o n b)
      = Op.set_attr_bool op n b
  ∧ Except.bind (Op.set_attr_bool_list op n bl) (fun o => Op.set_attr_bool_list o n bl)
      = Op.set_attr_bool_list op n bl
  ∧ Except.bind (Op.set_attr_type op n t) (fun o => Op.set_attr_type o n t)
      = Op.set_attr_type op n t
  ∧ Except.bind (Op.set_attr_type_list op n tl) (fun o => Op.set_attr_type_list o n tl)
      = Op.set_attr_type_list op n tl
  ∧ Except.bind (Op.set_attr_shape op n sh okStatus)
      (fun o => Op.set_attr_shape o n sh okStatus) = Op.set_attr_shape op n sh okStatus
  ∧ Except.bind (Op.set_attr_shape_list op n shl okStatus)
      (fun o => Op.set_attr_shape_list o n shl okStatus)
      = Op.set_attr_shape_list op n shl okStatus
  ∧ Except.bind (Op.set_attr_any_tensor op n (.ok tIn) okStatus)
      (fun o => Op.set_attr_any_tensor o n (.ok tIn) okStatus)
      = Op.set_attr_any_tensor op n (.ok tIn) okStatus := by
  cases h : hasNullByte n <;>
    refine ⟨?_, ?_, ?_, ?_, ?_, ?_, ?_, ?_, ?_, ?_, ?_, ?_, ?_⟩ <;>
    simp [Op.set_attr_string, Op.set_attr_string_list, Op.set_attr_int,
      Op.set_attr_int_list, Op.set_attr_float, Op.set_attr_float_list,
      Op.set_attr_bool, Op.set_attr_bool_list, Op.set_attr_type,
      Op.set_attr_type_list, Op.set_attr_shape, Op.set_attr_shape_list,
      Op.set_attr_any_tensor, h, Except.bind, setAttr_idem, okStatus, Status.isOk]

/-- C7: on a descriptor on which `set_device` succeeded, a subsequent
`get_device` returns `Ok`; the returned string is the device the native
layer resolved, which need not equal the string passed to `set_device`. -/
theorem get_device_ok_after_set_device (op op' : OpState) (name r : String)
    (h : Op.set_device op name (.ok r) = .ok op') :
    Op.get_device op' = .ok r := by
  cases hn : hasNullByte name
  · simp [Op.set_device, hn] at h
    simp [Op.get_device, ← h]
  · simp [Op.set_device, hn] at h

/-- Witness for C7: setting device `CPU:0` which the native layer resolves
to `/device:CPU:0` succeeds, and the subsequent get returns `Ok` with the
resolved (different) string. -/
theorem get_device_ok_after_set_device_witness :
    Op.set_device ⟨"Add", [], [], none⟩ "CPU:0" (.ok "/device:CPU:0")
        = .ok ⟨"Add", [], [], some "/device:CPU:0"⟩
  ∧ Op.get_device ⟨"Add", [], [], some "/device:CPU:0"⟩ = .ok "/device:CPU:0" :=
  ⟨by rfl, get_device_ok_after_set_device ⟨"Add", [], [], none⟩
      ⟨"Add", [], [], some "/device:CPU:0"⟩ "CPU:0" "/device:CPU:0" (by rfl)⟩

/-- C8: on every exit path of `Add::call` — creation failure, either
failed `add_input`, a failed attribute set, a failed execute, and success
— the one native resource behind the descriptor is released exactly as
many times as it was created (exactly once whenever creation succeeded,
never more than once), and the instrumented trace computes the same result
as the uninstrumented call. -/
theorem op_resource_released_exactly_once (self : AddOp) (ctx : Context)
    (heap : Nat → CTensor) (x y : TensorHandle) (stX stY : Status) :
    ((addCallTrace self ctx heap x y stX stY).2.count ResEv.opDeleted
      = (addCallTrace self ctx heap x y stX stY).2.count ResEv.opCreated)
  ∧ (addCallTrace self ctx heap x y stX stY).2.count ResEv.opDeleted ≤ 1
  ∧ (addCallTrace self ctx heap x y stX stY).1 = self.call ctx heap x y stX stY := by
  rcases h1 : Op.new ctx "Add" with st | op
  · simp [addCallTrace, AddOp.call, h1]
  · rcases h2 : Op.add_input op x stX with st | op2
    · simp [addCallTrace, AddOp.call, h1, h2]
      decide
    · rcases h3 : Op.add_input op2 y stY with st | op3
      · simp [addCallTrace, AddOp.call, h1, h2, h3]
        decide
      · rcases h4 : (match self.T with
            | some value => Op.set_attr_type op3 "T" value
            | none => .ok op3 : Except Status OpState) with st | op4
        · simp [addCallTrace, AddOp.call, h1, h2, h3, h4]
          decide
        · rcases h5 : executeWrap (nativeExecuteAdd heap op4) with st | res
          · simp [addCallTrace, AddOp.call, h1, h2, h3, h4, h5]
            decide
          · simp [addCallTrace, AddOp.call, h1, h2, h3, h4, h5]
            decide

/-- Whether a setter call produced a descriptor rather than an error. -/
def exceptIsOk : Except Status OpState → Bool
  | .ok _ => true
  | .error _ => false

/-- C9: the simple attribute setters (string, string list, int, int list,
float, float list, bool, bool list, type, type list) consult no native
status and can fail only on an embedded null byte in the attribute name:
they succeed exactly when the name has no interior null byte, for every
value. -/
theorem simple_setters_fail_only_on_nul_name (op : OpState) (n : String)
    (s : String) (ss : List String) (i : Int) (il : List Int) (f : F32)
    (fl : List F32) (b : Bool) (bl : List Bool) (t : DataType) (tl : List DataType) :
    exceptIsOk (Op.set_attr_string op n s) = !hasNullByte n
  ∧ exceptIsOk (Op.set_attr_string_list op n ss) = !hasNullByte n
  ∧ exceptIsOk (Op.set_attr_int op n i) = !hasNullByte n
  ∧ exceptIsOk (Op.set_attr_int_list op n il) = !hasNullByte n
  ∧ exceptIsOk (Op.set_attr_float op n f) = !hasNullByte n
  ∧ exceptIsOk (Op.set_attr_float_list op n fl) = !hasNullByte n
  ∧ exceptIsOk (Op.set_attr_bool op n b) = !hasNullByte n
  ∧ exceptIsOk (Op.set_attr_bool_list op n bl) = !hasNullByte n
  ∧ exceptIsOk (Op.set_attr_type op n t) = !hasNullByte n
  ∧ exceptIsOk (Op.set_attr_type_list op n tl) = !hasNullByte n := by
  cases h : hasNullByte n <;>
    refine ⟨?_, ?_, ?_, ?_, ?_, ?_, ?_, ?_, ?_, ?_⟩ <;>
    simp [exceptIsOk, Op.set_attr_string, Op.set_attr_string_list, Op.set_attr_int,
      Op.set_attr_int_list, Op.set_attr_float, Op.set_attr_float_list,
      Op.set_attr_bool, Op.set_attr_bool_list, Op.set_attr_type,
      Op.set_attr_type_list, h]

/-- C10: `set_attr_string` and `set_attr_string_list` reject only the
attribute name for interior null bytes; every value is passed through as
raw bytes plus explicit length, so for any name without interior nulls the
call returns `Ok` and stores the value intact, whatever bytes it holds. -/
theorem string_attr_values_admit_interior_nul (op : OpState) (n v : String)
    (vs : List String) (h : hasNullByte n = false) :
    Op.set_attr_string op n v = .ok { op with attrs := setAttr op.attrs n (.str v) }
  ∧ Op.set_attr_string_list op n vs
      = .ok { op with attrs := setAttr op.attrs n (.strList vs) } := by
  constructor <;>
    simp [Op.set_attr_string, Op.set_attr_string_list, stringMarshal,
      stringListMarshal, h]

/-- Witness for C10: an attribute value with an embedded null byte is
accepted and stored verbatim under a null-free attribute name. -/
theorem string_attr_values_admit_interior_nul_witness :
    hasNullByte "value" = false ∧ hasNullByte "a\x00b" = true
  ∧ Op.set_attr_string ⟨"Add", [], [], none⟩ "value" "a\x00b"
      = .ok { name := "Add", inputs := [],
              attrs := setAttr [] "value" (.str "a\x00b"), device := none } :=
  ⟨by decide, by decide,
    (string_attr_values_admit_interior_nul ⟨"Add", [], [], none⟩ "value" "a\x00b" []
      (by decide)).1⟩
